import Mathlib

/-!
Edge watcher (`com_diozero_util_PollNative.c`).

A shallow embedding of the two JNI entry points of
`system-utils-native/src/main/c/com_diozero_util_PollNative.c`:

* `Java_com_diozero_util_PollNative_poll` (lines 17-92)
* `Java_com_diozero_util_PollNative_stop` (lines 94-97)

The C code is a straight-line setup followed by a `while (1)` loop whose only
interaction with the outside world is through calls (JNI lookups, system
calls, clock helpers, Java callbacks).  The embedding makes every such call an
`Event` of a trace, in program order, and takes the value each call returns
from an explicit record of responses (`SetupResp` for the setup, one `IterResp`
per loop iteration).  Machine integers are `Int`/`Nat`; `NULL` is `0` for class
handles, and a method lookup answers whether the method was found.
-/

namespace PollNative

/-- Values of the header constants (`fcntl.h`, `poll.h`, `unistd.h`) used by the
code.  The headers are not part of the repository, so the model is parametric
in them. -/
structure Consts where
  O_RDONLY : Nat
  O_NONBLOCK : Nat
  POLLPRI : Nat
  POLLERR : Nat
  POLLHUP : Nat
  POLLNVAL : Nat
  SEEK_SET : Nat
  deriving DecidableEq, Repr

/-- The values of the constants on Linux (generic architecture). -/
def linuxConsts : Consts where
  O_RDONLY := 0
  O_NONBLOCK := 2048
  POLLPRI := 2
  POLLERR := 8
  POLLHUP := 16
  POLLNVAL := 32
  SEEK_SET := 0

/-- A `jmethodID` as returned by `GetMethodID`: the class it was resolved in,
the method name and the descriptor it was resolved with. -/
structure MethodID where
  cls : Nat
  name : String
  sig : String
  deriving DecidableEq, Repr

/-- An argument of a variadic `CallVoidMethod` call, by its C type after the
default argument promotions: a `jobject`, a `jlong`, or an `int` (which is what
a `uint8_t`, a `jint` or a `jchar` argument is passed as). -/
inductive JValue where
  | obj (h : Nat)
  | long (v : Int)
  | int (v : Int)
  deriving DecidableEq, Repr

/-- One call made by the native code, with the arguments it passes. -/
inductive Event where
  | GetObjectClass (obj : Nat)
  | GetMethodID (cls : Nat) (name : String) (sig : String)
  | ExceptionCheck
  | GetStringLength (s : String)
  | GetStringUTFRegion (s : String) (start : Nat) (len : Nat)
  | printf (fmt : String) (args : List String)
  | open (path : String) (flags : Nat)
  | CallVoidMethod (obj : Nat) (mid : MethodID) (args : List JValue)
  | lseek (fd : Int) (offset : Int) (whence : Nat)
  | read (fd : Int) (count : Nat)
  | poll (fd : Int) (events : Nat) (nfds : Nat) (timeout : Int)
  | getJavaNanoTime
  | getEpochTime
  | close (fd : Int)
  deriving DecidableEq, Repr

/-- What a `read` call does: the value it returns and the bytes the kernel has
available to copy into the caller's buffer. -/
structure ReadResp where
  ret : Int
  data : List Nat
  deriving DecidableEq, Repr

/-- Responses of the calls made before the loop (lines 19-61). -/
structure SetupResp where
  /-- Result of `GetObjectClass(env, callback)`; `0` is `NULL`. -/
  callbackClass : Nat
  /-- Whether `GetMethodID` finds `notify` (non-`NULL` result). -/
  notifyFound : Bool
  /-- Result of `ExceptionCheck(env)` after the lookup. -/
  exceptionPending : Bool
  /-- Result of `open`. -/
  openRet : Int
  /-- Text of `strerror(errno)` after `open`. -/
  openErr : String
  /-- Result of `GetObjectClass(env, pollNative)`; `0` is `NULL`. -/
  pollNativeClass : Nat
  /-- Whether `GetMethodID` finds `setFd`. -/
  setFdFound : Bool
  /-- The throwaway `read` of line 61. -/
  firstRead : ReadResp
  deriving DecidableEq, Repr

/-- Responses of the calls of one loop iteration (lines 74-81): the value
`poll` returns, the value of `pfd.revents` after the call, the two clock
readings, and the re-read. -/
structure IterResp where
  pollRet : Int
  revents : Nat
  nanoTime : Int
  epochTime : Int
  readRes : ReadResp
  deriving DecidableEq, Repr

/-- Result of running a native function against given responses: the calls it
made, in order, and whether it has returned (`false`: the loop has consumed
every response supplied and has not met a termination condition). -/
structure Run where
  trace : List Event
  returned : Bool
  deriving DecidableEq, Repr

/-- Line 56: `const int BUF_LEN = 2;`. -/
def BUF_LEN : Nat := 2

/-- The call `memset(c, 0, n)` on a byte buffer. -/
def memset (c : List Nat) (n : Nat) : List Nat :=
  List.replicate (min n c.length) 0 ++ c.drop n

/-- Buffer after `read(fd, &c, count)`: when the call returns `ret > 0` the
first `min ret count` bytes of the buffer are overwritten with (the low 8 bits
of) the bytes read; otherwise the buffer is left as it was. -/
def readInto (c : List Nat) (count : Nat) (r : ReadResp) : List Nat :=
  let bytes := (r.data.take (min r.ret.toNat count)).map (· % 256)
  bytes.take c.length ++ c.drop bytes.length

/-- Line 24: `char* method_name = "notify";`. -/
def method_name : String := "notify"

/-- Line 25: `char* signature = "(Ljava/lang/String;JC)V";`. -/
def signature : String := "(Ljava/lang/String;JC)V"

/-- Line 47: `char* set_fd_method_name = "setFd";`. -/
def set_fd_method_name : String := "setFd"

/-- Line 48: `char* set_fd_signature = "(I)V";`. -/
def set_fd_signature : String := "(I)V"

/-- Line 67: `pfd.events = POLLPRI | POLLERR | POLLHUP | POLLNVAL;`. -/
def pfdEvents (k : Consts) : Nat :=
  k.POLLPRI ||| k.POLLERR ||| k.POLLHUP ||| k.POLLNVAL

/-- The termination test of line 83:
`retval < 0 || (pfd.revents & POLLNVAL) || r <= 0`. -/
def breakCond (k : Consts) (retval : Int) (revents : Nat) (r : Int) : Bool :=
  decide (retval < 0) || decide (revents &&& k.POLLNVAL ≠ 0) || decide (r ≤ 0)

/-- The variadic arguments of the dispatch call of line 87:
`ref, epoch_time, nano_time, c[0]`. -/
def notifyArgs (ref : Nat) (epoch_time nano_time : Int) (c : List Nat) : List JValue :=
  [JValue.obj ref, JValue.long epoch_time, JValue.long nano_time,
   JValue.int (Int.ofNat (c.getD 0 0))]

/-- Calls of lines 74-81, common to every iteration. -/
def iterCalls (k : Consts) (timeout : Int) (fd : Int) : List Event :=
  [Event.poll fd (pfdEvents k) 1 timeout,
   Event.getJavaNanoTime,
   Event.getEpochTime,
   Event.lseek fd 0 k.SEEK_SET,
   Event.read fd (BUF_LEN - 1)]

/-- One pass through the loop body (lines 74-88), started with buffer `c`.
Returns the calls made, the buffer afterwards and whether `break` was taken. -/
def pollIteration (k : Consts) (timeout : Int) (ref callback : Nat)
    (notify_method_id : MethodID) (fd : Int) (c : List Nat) (it : IterResp) :
    List Event × List Nat × Bool :=
  let retval := it.pollRet
  let nano_time := it.nanoTime
  let epoch_time := it.epochTime
  let c1 := memset c BUF_LEN
  let c2 := readInto c1 (BUF_LEN - 1) it.readRes
  let r := it.readRes.ret
  if breakCond k retval it.revents r then
    (iterCalls k timeout fd ++ [Event.printf "Invalid response" []], c2, true)
  else if retval > 0 then
    (iterCalls k timeout fd ++
      [Event.CallVoidMethod callback notify_method_id
        (notifyArgs ref epoch_time nano_time c2)], c2, false)
  else
    (iterCalls k timeout fd, c2, false)

/-- The `while (1)` loop of lines 72-89, run against the responses of
successive iterations.  The `Bool` tells whether the loop was left by `break`;
it is `false` when the responses are used up first. -/
def pollLoop (k : Consts) (timeout : Int) (ref callback : Nat)
    (notify_method_id : MethodID) (fd : Int) :
    List Nat → List IterResp → List Event × Bool
  | _, [] => ([], false)
  | c, it :: rest =>
    match pollIteration k timeout ref callback notify_method_id fd c it with
    | (tr, c2, brk) =>
      if brk then (tr, true)
      else
        match pollLoop k timeout ref callback notify_method_id fd c2 rest with
        | (tr2, done) => (tr ++ tr2, done)

/-- Calls of lines 19-34 and 36 when both handler lookups succeed: the class
and method lookup of the handler, the copy of the file name, and `open`. -/
def openCalls (k : Consts) (s : SetupResp) (filename : String) (callback : Nat) :
    List Event :=
  let len := filename.length
  let c_filename := String.mk (filename.toList.take len)
  [Event.GetObjectClass callback,
   Event.GetMethodID s.callbackClass method_name signature,
   Event.ExceptionCheck,
   Event.GetStringLength filename,
   Event.GetStringUTFRegion filename 0 len,
   Event.open c_filename (k.O_RDONLY ||| k.O_NONBLOCK)]

/-- Calls of lines 42-61 when both `setFd` lookups succeed: the class and
method lookup on the session object, the `setFd` call, and the throwaway
seek and read. -/
def publishCalls (k : Consts) (s : SetupResp) (pollNative : Nat) (fd : Int) :
    List Event :=
  [Event.GetObjectClass pollNative,
   Event.GetMethodID s.pollNativeClass set_fd_method_name set_fd_signature,
   Event.CallVoidMethod pollNative
     ⟨s.pollNativeClass, set_fd_method_name, set_fd_signature⟩ [JValue.int fd],
   Event.lseek fd 0 k.SEEK_SET,
   Event.read fd (BUF_LEN - 1)]

/-- The function `Java_com_diozero_util_PollNative_poll` (lines 17-92). -/
def Java_com_diozero_util_PollNative_poll (k : Consts) (s : SetupResp)
    (its : List IterResp) (pollNative : Nat) (filename : String) (timeout : Int)
    (ref callback : Nat) : Run :=
  let callback_class := s.callbackClass
  if callback_class = 0 then
    ⟨[Event.GetObjectClass callback,
      Event.printf "Error: poll() could not get callback class\n" []], true⟩
  else
    let notify_method_id : MethodID := ⟨callback_class, method_name, signature⟩
    if s.exceptionPending || !s.notifyFound then
      ⟨[Event.GetObjectClass callback,
        Event.GetMethodID callback_class method_name signature,
        Event.ExceptionCheck,
        Event.printf
          "Unable to find method '%s' with signature '%s' in callback object\n"
          [method_name, signature]], true⟩
    else
      let fd := s.openRet
      if fd < 0 then
        ⟨openCalls k s filename callback ++
          [Event.printf "open: file %s could not be opened, %s\n"
            [String.mk (filename.toList.take filename.length), s.openErr]], true⟩
      else
        let poll_native_class := s.pollNativeClass
        if poll_native_class = 0 then
          ⟨openCalls k s filename callback ++
            [Event.GetObjectClass pollNative,
             Event.printf "Error: poll() could not get PollNative class\n" []], true⟩
        else if !s.setFdFound then
          ⟨openCalls k s filename callback ++
            [Event.GetObjectClass pollNative,
             Event.GetMethodID poll_native_class set_fd_method_name set_fd_signature,
             Event.printf
               "Unable to find method '%s' with signature '%s' in PollNative object\n"
               [set_fd_method_name, set_fd_signature]], true⟩
        else
          let c := memset (List.replicate BUF_LEN 0) BUF_LEN
          let c1 := readInto c (BUF_LEN - 1) s.firstRead
          match pollLoop k timeout ref callback notify_method_id fd c1 its with
          | (tr, true) =>
            ⟨openCalls k s filename callback ++ publishCalls k s pollNative fd ++ tr ++
              [Event.close fd], true⟩
          | (tr, false) =>
            ⟨openCalls k s filename callback ++ publishCalls k s pollNative fd ++ tr,
              false⟩

/-- The function `Java_com_diozero_util_PollNative_stop` (lines 94-97):
`close(fd);` with the result of `close` (here `closeRet`) discarded. -/
def Java_com_diozero_util_PollNative_stop (fd : Int) (_closeRet : Int) : Run :=
  ⟨[Event.close fd], true⟩

/-- Whether an iteration with these responses meets the termination test. -/
def stops (k : Consts) (it : IterResp) : Bool :=
  breakCond k it.pollRet it.revents it.readRes.ret

/-- Whether a call is an invocation of the handler: a `CallVoidMethod` through a
method identifier resolved under the name `notify`. -/
def isDispatch : Event → Bool
  | Event.CallVoidMethod _ mid _ => mid.name == method_name
  | _ => false

/-- Whether a call is a `close`. -/
def isClose : Event → Bool
  | Event.close _ => true
  | _ => false

/-- Whether a call is a `poll`. -/
def isPoll : Event → Bool
  | Event.poll _ _ _ _ => true
  | _ => false

/-- Whether a call is a JNI query (class or method lookup, exception check,
string length or string copy) rather than an effect on the file, the clocks,
the standard output or a Java object. -/
def isLookup : Event → Bool
  | Event.GetObjectClass _ => true
  | Event.GetMethodID _ _ _ => true
  | Event.ExceptionCheck => true
  | Event.GetStringLength _ => true
  | Event.GetStringUTFRegion _ _ _ => true
  | _ => false

/-- The byte a successful one-byte read leaves in `c[0]`: the first byte read,
as a `uint8_t` (and `0`, the value `memset` left, when no byte was copied). -/
def firstByte (r : ReadResp) : Nat :=
  r.data.headD 0 % 256

/-- The dispatch call expected for an iteration: token, wall-clock reading,
monotonic reading and first byte of that iteration's re-read. -/
def dispatchOf (ref callback : Nat) (mid : MethodID) (it : IterResp) : Event :=
  Event.CallVoidMethod callback mid
    [JValue.obj ref, JValue.long it.epochTime, JValue.long it.nanoTime,
     JValue.int (Int.ofNat (firstByte it.readRes))]

/-- The handler invocations expected from a run of the loop: one for each
iteration before the first terminating one in which `poll` returned a positive
value, in iteration order. -/
def expectedDispatches (k : Consts) (ref callback : Nat) (mid : MethodID)
    (its : List IterResp) : List Event :=
  ((its.takeWhile (fun it => !stops k it)).filter
    (fun it => decide (it.pollRet > 0))).map (dispatchOf ref callback mid)

/-- Whether every lookup of the setup succeeds and `open` returns a handle. -/
def setupOk (s : SetupResp) : Bool :=
  decide (s.callbackClass ≠ 0) && !s.exceptionPending && s.notifyFound &&
    decide (0 ≤ s.openRet) && decide (s.pollNativeClass ≠ 0) && s.setFdFound

/-- Whether the handler lookups succeed, so that `open` is reached. -/
def reachesOpen (s : SetupResp) : Bool :=
  decide (s.callbackClass ≠ 0) && !s.exceptionPending && s.notifyFound

/-- Buffer `c` as the loop first sees it (lines 57-61): zeroed, then the
throwaway read. -/
def initialBuffer (s : SetupResp) : List Nat :=
  readInto (memset (List.replicate BUF_LEN 0) BUF_LEN) (BUF_LEN - 1) s.firstRead

/-- Parameter and field types of a JVM method descriptor. -/
inductive JType where
  | boolean
  | byte
  | char
  | short
  | int
  | long
  | float
  | double
  | object (cls : String)
  | array (elem : JType)
  deriving DecidableEq, Repr

/-- Reads one field type from the front of a descriptor. -/
def parseFieldType : Nat → List Char → Option (JType × List Char)
  | 0, _ => none
  | _ + 1, [] => none
  | n + 1, ch :: cs =>
    if ch = 'Z' then some (JType.boolean, cs)
    else if ch = 'B' then some (JType.byte, cs)
    else if ch = 'C' then some (JType.char, cs)
    else if ch = 'S' then some (JType.short, cs)
    else if ch = 'I' then some (JType.int, cs)
    else if ch = 'J' then some (JType.long, cs)
    else if ch = 'F' then some (JType.float, cs)
    else if ch = 'D' then some (JType.double, cs)
    else if ch = 'L' then
      match cs.span (fun x => x != ';') with
      | (nm, _ :: rest) =>
        if nm.isEmpty then none else some (JType.object (String.mk nm), rest)
      | (_, []) => none
    else if ch = '[' then
      match parseFieldType n cs with
      | some (t, rest) => some (JType.array t, rest)
      | none => none
    else none

/-- Reads the parameter types of a descriptor up to the closing parenthesis. -/
def parseParams : Nat → List Char → Option (List JType)
  | 0, _ => none
  | n + 1, cs =>
    match cs with
    | [] => none
    | ch :: rest =>
      if ch = ')' then some []
      else
        match parseFieldType (n + 1) (ch :: rest) with
        | some (t, rest2) =>
          match parseParams n rest2 with
          | some ts => some (t :: ts)
          | none => none
        | none => none

/-- The parameter types a method descriptor declares. -/
def descriptorParams (sig : String) : Option (List JType) :=
  match sig.toList with
  | [] => none
  | ch :: cs => if ch = '(' then parseParams (cs.length + 1) cs else none

/-- Whether a variadic argument has the C type with which `CallVoidMethod`
fetches a parameter of the given type. -/
def accepts : JType → JValue → Bool
  | JType.object _, JValue.obj _ => true
  | JType.array _, JValue.obj _ => true
  | JType.long, JValue.long _ => true
  | JType.boolean, JValue.int _ => true
  | JType.byte, JValue.int _ => true
  | JType.char, JValue.int _ => true
  | JType.short, JValue.int _ => true
  | JType.int, JValue.int _ => true
  | _, _ => false

/-- Whether an argument list supplies exactly the declared parameters. -/
def argsMatch : List JType → List JValue → Bool
  | [], [] => true
  | t :: ts, a :: as => accepts t a && argsMatch ts as
  | _, _ => false

/-- A setup in which every lookup succeeds and `open` returns handle `3`. -/
def sampleSetup : SetupResp where
  callbackClass := 7
  notifyFound := true
  exceptionPending := false
  openRet := 3
  openErr := ""
  pollNativeClass := 9
  setFdFound := true
  firstRead := ⟨1, [48]⟩

/-- An edge: `poll` reports one ready descriptor and the re-read yields `'1'`. -/
def sampleEdge : IterResp := ⟨1, 2, 1000, 50, ⟨1, [49]⟩⟩

/-- A timeout: `poll` returns zero and the re-read yields `'1'`. -/
def sampleTimeout : IterResp := ⟨0, 0, 2000, 51, ⟨1, [49]⟩⟩

/-- The handle has been closed: `poll` reports `POLLNVAL` and `read` fails. -/
def sampleClosed : IterResp := ⟨1, 32, 3000, 52, ⟨-1, []⟩⟩

/-- Whether a call is a `CallVoidMethod`, on any object and method. -/
def isCall : Event → Bool
  | Event.CallVoidMethod _ _ _ => true
  | _ => false

/-- The setup of `sampleSetup`, except that the class of the session object
cannot be obtained after the file has been opened. -/
def noSessionClass : SetupResp where
  callbackClass := 7
  notifyFound := true
  exceptionPending := false
  openRet := 3
  openErr := ""
  pollNativeClass := 0
  setFdFound := true
  firstRead := ⟨1, [48]⟩

/-- The setup of `sampleSetup`, except that the session object has no `setFd`
method. -/
def noSetFd : SetupResp where
  callbackClass := 7
  notifyFound := true
  exceptionPending := false
  openRet := 3
  openErr := ""
  pollNativeClass := 9
  setFdFound := false
  firstRead := ⟨1, [48]⟩

/-- A setup in which the handler is found and `open` fails. -/
def openFails : SetupResp where
  callbackClass := 7
  notifyFound := true
  exceptionPending := false
  openRet := -1
  openErr := "No such file or directory"
  pollNativeClass := 9
  setFdFound := true
  firstRead := ⟨1, [48]⟩

/-- The value file of a GPIO line. -/
def samplePath : String := "/sys/class/gpio/gpio4/value"

/-! ## Auxiliary facts about the buffer and one iteration -/

theorem memset_length (c : List Nat) (n : Nat) : (memset c n).length = c.length := by
  unfold memset
  simp only [List.length_append, List.length_replicate, List.length_drop]
  omega

theorem readInto_length (c : List Nat) (n : Nat) (r : ReadResp) :
    (readInto c n r).length = c.length := by
  unfold readInto
  simp only [List.length_append, List.length_take, List.length_drop, List.length_map]
  omega

theorem readInto_first (c : List Nat) (r : ReadResp) (hc : c.length = BUF_LEN)
    (hr : 0 < r.ret) :
    (readInto (memset c BUF_LEN) (BUF_LEN - 1) r).getD 0 0 = firstByte r := by
  have hmin : min r.ret.toNat (BUF_LEN - 1) = 1 := by
    have : 1 ≤ r.ret.toNat := by omega
    simp only [BUF_LEN]
    omega
  match c, hc with
  | [a, b], _ =>
    unfold readInto firstByte
    rw [hmin]
    cases hd : r.data with
    | nil => simp [memset, BUF_LEN]
    | cons d ds => simp [memset, BUF_LEN]

theorem breakCond_iff (k : Consts) (retval : Int) (revents : Nat) (r : Int) :
    breakCond k retval revents r = true ↔
      (retval < 0 ∨ revents &&& k.POLLNVAL ≠ 0 ∨ r ≤ 0) := by
  simp [breakCond, or_assoc]

theorem pollIteration_stop (k : Consts) (timeout : Int) (ref callback : Nat)
    (mid : MethodID) (fd : Int) (c : List Nat) (it : IterResp)
    (h : stops k it = true) :
    pollIteration k timeout ref callback mid fd c it =
      (iterCalls k timeout fd ++ [Event.printf "Invalid response" []],
        readInto (memset c BUF_LEN) (BUF_LEN - 1) it.readRes, true) := by
  unfold stops at h
  simp [pollIteration, h]

theorem pollIteration_pos (k : Consts) (timeout : Int) (ref callback : Nat)
    (mid : MethodID) (fd : Int) (c : List Nat) (it : IterResp)
    (h : stops k it = false) (hp : 0 < it.pollRet) :
    pollIteration k timeout ref callback mid fd c it =
      (iterCalls k timeout fd ++ [Event.CallVoidMethod callback mid
          (notifyArgs ref it.epochTime it.nanoTime
            (readInto (memset c BUF_LEN) (BUF_LEN - 1) it.readRes))],
        readInto (memset c BUF_LEN) (BUF_LEN - 1) it.readRes, false) := by
  unfold stops at h
  simp [pollIteration, h, hp]

theorem pollIteration_zero (k : Consts) (timeout : Int) (ref callback : Nat)
    (mid : MethodID) (fd : Int) (c : List Nat) (it : IterResp)
    (h : stops k it = false) (hp : ¬ 0 < it.pollRet) :
    pollIteration k timeout ref callback mid fd c it =
      (iterCalls k timeout fd,
        readInto (memset c BUF_LEN) (BUF_LEN - 1) it.readRes, false) := by
  unfold stops at h
  simp [pollIteration, h, hp]

theorem pollIteration_brk (k : Consts) (timeout : Int) (ref callback : Nat)
    (mid : MethodID) (fd : Int) (c : List Nat) (it : IterResp) :
    (pollIteration k timeout ref callback mid fd c it).2.2 = stops k it := by
  cases h : stops k it
  · by_cases hp : 0 < it.pollRet
    · rw [pollIteration_pos k timeout ref callback mid fd c it h hp]
    · rw [pollIteration_zero k timeout ref callback mid fd c it h hp]
  · rw [pollIteration_stop k timeout ref callback mid fd c it h]

theorem pollIteration_buffer (k : Consts) (timeout : Int) (ref callback : Nat)
    (mid : MethodID) (fd : Int) (c : List Nat) (it : IterResp) :
    (pollIteration k timeout ref callback mid fd c it).2.1 =
      readInto (memset c BUF_LEN) (BUF_LEN - 1) it.readRes := by
  cases h : stops k it
  · by_cases hp : 0 < it.pollRet
    · rw [pollIteration_pos k timeout ref callback mid fd c it h hp]
    · rw [pollIteration_zero k timeout ref callback mid fd c it h hp]
  · rw [pollIteration_stop k timeout ref callback mid fd c it h]

theorem pollIteration_buffer_length (k : Consts) (timeout : Int) (ref callback : Nat)
    (mid : MethodID) (fd : Int) (c : List Nat) (it : IterResp) :
    (pollIteration k timeout ref callback mid fd c it).2.1.length = c.length := by
  rw [pollIteration_buffer, readInto_length, memset_length]

theorem stops_false_read_pos (k : Consts) (it : IterResp) (h : stops k it = false) :
    0 < it.readRes.ret := by
  by_contra hn
  have : stops k it = true := by
    unfold stops
    rw [breakCond_iff]
    right; right; omega
  rw [h] at this
  exact Bool.noConfusion this

theorem notifyArgs_fresh (ref : Nat) (c : List Nat) (it : IterResp)
    (hc : c.length = BUF_LEN) (hr : 0 < it.readRes.ret) (callback : Nat)
    (mid : MethodID) :
    Event.CallVoidMethod callback mid
        (notifyArgs ref it.epochTime it.nanoTime
          (readInto (memset c BUF_LEN) (BUF_LEN - 1) it.readRes)) =
      dispatchOf ref callback mid it := by
  unfold notifyArgs dispatchOf
  rw [readInto_first c it.readRes hc hr]

theorem pollLoop_nil (k : Consts) (timeout : Int) (ref callback : Nat)
    (mid : MethodID) (fd : Int) (c : List Nat) :
    pollLoop k timeout ref callback mid fd c [] = ([], false) := by
  cases c <;> rfl

theorem pollLoop_cons (k : Consts) (timeout : Int) (ref callback : Nat)
    (mid : MethodID) (fd : Int) (c : List Nat) (it : IterResp)
    (rest : List IterResp) :
    pollLoop k timeout ref callback mid fd c (it :: rest) =
      if stops k it then
        ((pollIteration k timeout ref callback mid fd c it).1, true)
      else
        ((pollIteration k timeout ref callback mid fd c it).1 ++
          (pollLoop k timeout ref callback mid fd
            (pollIteration k timeout ref callback mid fd c it).2.1 rest).1,
         (pollLoop k timeout ref callback mid fd
            (pollIteration k timeout ref callback mid fd c it).2.1 rest).2) := by
  rw [← pollIteration_brk k timeout ref callback mid fd c it]
  rw [pollLoop]

/-! ## Auxiliary facts about the loop and the whole function -/

theorem pollLoop_exits (k : Consts) (timeout : Int) (ref callback : Nat)
    (mid : MethodID) (fd : Int) (its : List IterResp) :
    ∀ c, (pollLoop k timeout ref callback mid fd c its).2 = its.any (stops k) := by
  induction its with
  | nil => intro c; rw [pollLoop_nil]; rfl
  | cons it rest ih =>
    intro c
    rw [pollLoop_cons]
    cases h : stops k it
    · simp [h, ih]
    · simp [h]

theorem pollLoop_trace_exit (k : Consts) (timeout : Int) (ref callback : Nat)
    (mid : MethodID) (fd : Int) (its : List IterResp)
    (hx : its.any (stops k) = true) :
    ∀ c, (pollLoop k timeout ref callback mid fd c its).1 =
      (pollLoop k timeout ref callback mid fd c
          (its.takeWhile (fun it => !stops k it))).1 ++
        (iterCalls k timeout fd ++ [Event.printf "Invalid response" []]) := by
  induction its with
  | nil => simp at hx
  | cons it rest ih =>
    intro c
    cases h : stops k it
    · have hx2 : rest.any (stops k) = true := by
        simpa [List.any_cons, h] using hx
      rw [pollLoop_cons, List.takeWhile_cons]
      simp only [h, Bool.not_false, if_true, Bool.false_eq_true, if_false]
      rw [pollLoop_cons]
      simp only [h, Bool.false_eq_true, if_false]
      rw [ih hx2, List.append_assoc]
    · rw [pollLoop_cons, List.takeWhile_cons]
      simp only [h, Bool.not_true, if_true, Bool.false_eq_true, if_false]
      rw [pollLoop_nil, pollIteration_stop k timeout ref callback mid fd c it h]
      rfl

theorem pollIteration_filter_dispatch (k : Consts) (timeout : Int) (ref callback : Nat)
    (mid : MethodID) (fd : Int) (c : List Nat) (it : IterResp)
    (hn : mid.name = method_name) (hc : c.length = BUF_LEN) :
    (pollIteration k timeout ref callback mid fd c it).1.filter isDispatch =
      if stops k it = false ∧ 0 < it.pollRet then [dispatchOf ref callback mid it]
      else [] := by
  cases h : stops k it
  · by_cases hp : 0 < it.pollRet
    · rw [pollIteration_pos k timeout ref callback mid fd c it h hp,
        notifyArgs_fresh ref c it hc (stops_false_read_pos k it h)]
      simp [iterCalls, isDispatch, dispatchOf, hn, hp]
    · rw [pollIteration_zero k timeout ref callback mid fd c it h hp]
      simp [iterCalls, isDispatch, hp]
  · rw [pollIteration_stop k timeout ref callback mid fd c it h]
    simp [iterCalls, isDispatch]

theorem pollLoop_filter_dispatch (k : Consts) (timeout : Int) (ref callback : Nat)
    (mid : MethodID) (fd : Int) (hn : mid.name = method_name)
    (its : List IterResp) :
    ∀ c, c.length = BUF_LEN →
      (pollLoop k timeout ref callback mid fd c its).1.filter isDispatch =
        expectedDispatches k ref callback mid its := by
  induction its with
  | nil => intro c _; rw [pollLoop_nil]; rfl
  | cons it rest ih =>
    intro c hc
    have hlen : (pollIteration k timeout ref callback mid fd c it).2.1.length
        = BUF_LEN := by
      rw [pollIteration_buffer_length]; exact hc
    rw [pollLoop_cons]
    unfold expectedDispatches
    rw [List.takeWhile_cons]
    cases h : stops k it
    · simp only [Bool.false_eq_true, if_false, Bool.not_false, if_true,
        List.filter_append, List.filter_cons, List.map_cons]
      rw [pollIteration_filter_dispatch k timeout ref callback mid fd c it hn hc,
        ih _ hlen]
      unfold expectedDispatches
      by_cases hp : 0 < it.pollRet
      · simp [h, hp]
      · simp [h, hp]
    · simp only [if_true, Bool.not_true, Bool.false_eq_true, if_false,
        List.filter_nil, List.map_nil]
      rw [pollIteration_filter_dispatch k timeout ref callback mid fd c it hn hc]
      simp [h]

theorem pollIteration_filter_close (k : Consts) (timeout : Int) (ref callback : Nat)
    (mid : MethodID) (fd : Int) (c : List Nat) (it : IterResp) :
    (pollIteration k timeout ref callback mid fd c it).1.filter isClose = [] := by
  cases h : stops k it
  · by_cases hp : 0 < it.pollRet
    · rw [pollIteration_pos k timeout ref callback mid fd c it h hp]
      simp [iterCalls, isClose]
    · rw [pollIteration_zero k timeout ref callback mid fd c it h hp]
      simp [iterCalls, isClose]
  · rw [pollIteration_stop k timeout ref callback mid fd c it h]
    simp [iterCalls, isClose]

theorem pollLoop_filter_close (k : Consts) (timeout : Int) (ref callback : Nat)
    (mid : MethodID) (fd : Int) (its : List IterResp) :
    ∀ c, (pollLoop k timeout ref callback mid fd c its).1.filter isClose = [] := by
  induction its with
  | nil => intro c; rw [pollLoop_nil]; rfl
  | cons it rest ih =>
    intro c
    rw [pollLoop_cons]
    cases h : stops k it
    · simp only [Bool.false_eq_true, if_false, List.filter_append]
      rw [pollIteration_filter_close, ih]
      rfl
    · simp only [if_true]
      rw [pollIteration_filter_close]

theorem c_filename_eq (filename : String) :
    String.mk (filename.toList.take filename.length) = filename := by
  have h : filename.toList.take filename.length = filename.toList := by
    apply List.take_of_length_le
    exact Nat.le_of_eq rfl
  rw [h]
  rfl

theorem initialBuffer_length (s : SetupResp) : (initialBuffer s).length = BUF_LEN := by
  unfold initialBuffer
  rw [readInto_length, memset_length]
  rfl

theorem poll_of_setupOk (k : Consts) (s : SetupResp) (its : List IterResp)
    (pollNative : Nat) (filename : String) (timeout : Int) (ref callback : Nat)
    (hs : setupOk s = true) :
    Java_com_diozero_util_PollNative_poll k s its pollNative filename timeout ref
        callback =
      ⟨openCalls k s filename callback ++ publishCalls k s pollNative s.openRet ++
          (pollLoop k timeout ref callback ⟨s.callbackClass, method_name, signature⟩
            s.openRet (initialBuffer s) its).1 ++
          (if its.any (stops k) then [Event.close s.openRet] else []),
        its.any (stops k)⟩ := by
  simp only [setupOk, Bool.and_eq_true, decide_eq_true_eq, Bool.not_eq_true',
    ne_eq] at hs
  obtain ⟨⟨⟨⟨⟨h1, h2⟩, h3⟩, h4⟩, h5⟩, h6⟩ := hs
  have h4n : ¬ s.openRet < 0 := by omega
  rw [← pollLoop_exits k timeout ref callback ⟨s.callbackClass, method_name, signature⟩
    s.openRet its (initialBuffer s)]
  unfold Java_com_diozero_util_PollNative_poll
  simp only [h1, h2, h3, h4n, h5, h6, if_false, Bool.or_false, Bool.not_true,
    Bool.false_eq_true]
  unfold initialBuffer
  rcases pollLoop k timeout ref callback ⟨s.callbackClass, method_name, signature⟩
    s.openRet (readInto (memset (List.replicate BUF_LEN 0) BUF_LEN) (BUF_LEN - 1)
      s.firstRead) its with ⟨tr, b⟩
  cases b <;> simp

theorem pollIteration_shape (k : Consts) (timeout : Int) (ref callback : Nat)
    (mid : MethodID) (fd : Int) (c : List Nat) (it : IterResp) :
    ∃ outcome, (pollIteration k timeout ref callback mid fd c it).1 =
        iterCalls k timeout fd ++ outcome ∧
      (outcome = [] ∨ outcome = [Event.printf "Invalid response" []] ∨
        ∃ args, outcome = [Event.CallVoidMethod callback mid args]) := by
  cases h : stops k it
  · by_cases hp : 0 < it.pollRet
    · rw [pollIteration_pos k timeout ref callback mid fd c it h hp]
      exact ⟨_, rfl, Or.inr (Or.inr ⟨_, rfl⟩)⟩
    · rw [pollIteration_zero k timeout ref callback mid fd c it h hp]
      exact ⟨[], by simp, Or.inl rfl⟩
  · rw [pollIteration_stop k timeout ref callback mid fd c it h]
    exact ⟨_, rfl, Or.inr (Or.inl rfl)⟩

theorem stops_iff (k : Consts) (it : IterResp) :
    stops k it = true ↔
      (it.pollRet < 0 ∨ it.revents &&& k.POLLNVAL ≠ 0 ∨ it.readRes.ret ≤ 0) := by
  unfold stops
  exact breakCond_iff k it.pollRet it.revents it.readRes.ret

/-! ## The claims -/

/-- C1: an iteration of the poll loop takes the `break` exactly when
`retval < 0`, or `pfd.revents` has `POLLNVAL` set, or `r <= 0`; when it does,
the loop ends with that iteration whatever responses would follow, and when it
does not, the next call the loop makes is another `poll`. -/
theorem loop_terminates_iff (k : Consts) (timeout : Int) (ref callback : Nat)
    (mid : MethodID) (fd : Int) (c : List Nat) (it it2 : IterResp)
    (rest : List IterResp) :
    ((pollIteration k timeout ref callback mid fd c it).2.2 = true ↔
      (it.pollRet < 0 ∨ it.revents &&& k.POLLNVAL ≠ 0 ∨ it.readRes.ret ≤ 0)) ∧
    ((it.pollRet < 0 ∨ it.revents &&& k.POLLNVAL ≠ 0 ∨ it.readRes.ret ≤ 0) →
      pollLoop k timeout ref callback mid fd c (it :: it2 :: rest) =
        (iterCalls k timeout fd ++ [Event.printf "Invalid response" []], true)) ∧
    (¬ (it.pollRet < 0 ∨ it.revents &&& k.POLLNVAL ≠ 0 ∨ it.readRes.ret ≤ 0) →
      ∃ tail done, pollLoop k timeout ref callback mid fd c (it :: it2 :: rest) =
        ((pollIteration k timeout ref callback mid fd c it).1 ++
          Event.poll fd (pfdEvents k) 1 timeout :: tail, done)) := by
  refine ⟨?_, ?_, ?_⟩
  · rw [pollIteration_brk, stops_iff]
  · intro h
    have hs : stops k it = true := (stops_iff k it).2 h
    rw [pollLoop_cons, pollIteration_stop k timeout ref callback mid fd c it hs]
    simp [hs]
  · intro h
    have hs : stops k it = false := by
      cases hb : stops k it
      · rfl
      · exact absurd ((stops_iff k it).1 hb) h
    obtain ⟨out, hout, _⟩ := pollIteration_shape k timeout ref callback mid fd
      (pollIteration k timeout ref callback mid fd c it).2.1 it2
    rw [pollLoop_cons]
    simp only [hs, Bool.false_eq_true, if_false]
    by_cases h2 : stops k it2 = true
    · refine ⟨[Event.getJavaNanoTime, Event.getEpochTime, Event.lseek fd 0 k.SEEK_SET,
        Event.read fd (BUF_LEN - 1)] ++ out, true, ?_⟩
      rw [pollLoop_cons]
      simp only [h2, if_true, hout]
      rfl
    · refine ⟨[Event.getJavaNanoTime, Event.getEpochTime, Event.lseek fd 0 k.SEEK_SET,
        Event.read fd (BUF_LEN - 1)] ++ out ++ (pollLoop k timeout ref callback mid fd
          (pollIteration k timeout ref callback mid fd
            (pollIteration k timeout ref callback mid fd c it).2.1 it2).2.1 rest).1,
        (pollLoop k timeout ref callback mid fd
          (pollIteration k timeout ref callback mid fd
            (pollIteration k timeout ref callback mid fd c it).2.1 it2).2.1 rest).2, ?_⟩
      rw [pollLoop_cons k timeout ref callback mid fd _ it2]
      simp only [h2, if_false, hout]
      simp [iterCalls]

/-- C8: every iteration of the poll loop makes its calls in this order: `poll`
on the handle with the caller's timeout, the monotonic-clock read
(`getJavaNanoTime`), the wall-clock read (`getEpochTime`), `lseek` to the file
start, `read` of at most one byte, and only then the outcome (nothing, the
message of the `break`, or the dispatch); and the calls of a run of the loop
are the calls of its iterations, one iteration after the other. -/
theorem iteration_call_order (k : Consts) (timeout : Int) (ref callback : Nat)
    (mid : MethodID) (fd : Int) (c : List Nat) (it : IterResp)
    (its : List IterResp) :
    (∃ outcome, (pollIteration k timeout ref callback mid fd c it).1 =
        [Event.poll fd (k.POLLPRI ||| k.POLLERR ||| k.POLLHUP ||| k.POLLNVAL) 1 timeout,
         Event.getJavaNanoTime,
         Event.getEpochTime,
         Event.lseek fd 0 k.SEEK_SET,
         Event.read fd 1] ++ outcome ∧
      (outcome = [] ∨ outcome = [Event.printf "Invalid response" []] ∨
        ∃ args, outcome = [Event.CallVoidMethod callback mid args])) ∧
    (∃ outcomes : List (List Event),
      (pollLoop k timeout ref callback mid fd c its).1 =
        (outcomes.map (fun o =>
          [Event.poll fd (k.POLLPRI ||| k.POLLERR ||| k.POLLHUP ||| k.POLLNVAL) 1 timeout,
           Event.getJavaNanoTime,
           Event.getEpochTime,
           Event.lseek fd 0 k.SEEK_SET,
           Event.read fd 1] ++ o)).flatten ∧
      outcomes.length ≤ its.length ∧
      ∀ o ∈ outcomes, o = [] ∨ o = [Event.printf "Invalid response" []] ∨
        ∃ args, o = [Event.CallVoidMethod callback mid args]) := by
  refine ⟨pollIteration_shape k timeout ref callback mid fd c it, ?_⟩
  induction its generalizing c with
  | nil => exact ⟨[], by rw [pollLoop_nil]; rfl, Nat.le_refl _, by simp⟩
  | cons i rest ih =>
    obtain ⟨o, ho, hshape⟩ := pollIteration_shape k timeout ref callback mid fd c i
    rw [pollLoop_cons]
    cases h : stops k i
    · obtain ⟨os, hos, hlen, hall⟩ :=
        ih (pollIteration k timeout ref callback mid fd c i).2.1
      refine ⟨o :: os, ?_, ?_, ?_⟩
      · simp only [Bool.false_eq_true, if_false, hos, ho, List.map_cons,
          List.flatten_cons]
        rfl
      · simp only [List.length_cons]; omega
      · intro x hx
        rcases List.mem_cons.1 hx with hx | hx
        · rw [hx]; exact hshape
        · exact hall x hx
    · refine ⟨[o], ?_, ?_, ?_⟩
      · simp only [if_true, ho, List.map_cons, List.map_nil, List.flatten_cons,
          List.flatten_nil, List.append_nil]
        rfl
      · simp
      · intro x hx
        rw [List.mem_singleton.1 hx]; exact hshape

/-- C7: for every handle and whatever `close` returns, the stop operation makes
exactly one call, `close` of the handle it was given, and returns; a second
stop on the same handle (where `close` fails) behaves the same way. -/
theorem stop_closes_once (fd closeRet closeRet2 : Int) :
    (Java_com_diozero_util_PollNative_stop fd closeRet).trace = [Event.close fd] ∧
    (Java_com_diozero_util_PollNative_stop fd closeRet).returned = true ∧
    Java_com_diozero_util_PollNative_stop fd closeRet2 =
      Java_com_diozero_util_PollNative_stop fd closeRet :=
  ⟨rfl, rfl, rfl⟩

/-- C3: started from a buffer `c` of `BUF_LEN` bytes holding anything (bytes
of the throwaway read or of an earlier iteration), the only `CallVoidMethod` an
iteration can make is the handler invocation with, in this order, the token
`ref`, the wall-clock reading and the monotonic reading of that iteration, and
the first byte of that iteration's re-read, which returned at least one byte;
hence every invocation made by a run of the loop carries the readings of one
of its iterations. -/
theorem dispatch_arguments (k : Consts) (timeout : Int) (ref callback : Nat)
    (mid : MethodID) (fd : Int) (c : List Nat) (hc : c.length = BUF_LEN) :
    (∀ it, ∀ e ∈ (pollIteration k timeout ref callback mid fd c it).1,
      isCall e = true →
        e = Event.CallVoidMethod callback mid
            [JValue.obj ref, JValue.long it.epochTime, JValue.long it.nanoTime,
             JValue.int (Int.ofNat (it.readRes.data.headD 0 % 256))] ∧
        0 < it.readRes.ret ∧ 0 < it.pollRet) ∧
    (∀ its, ∀ e ∈ (pollLoop k timeout ref callback mid fd c its).1,
      isCall e = true →
        ∃ it ∈ its, e = Event.CallVoidMethod callback mid
            [JValue.obj ref, JValue.long it.epochTime, JValue.long it.nanoTime,
             JValue.int (Int.ofNat (it.readRes.data.headD 0 % 256))] ∧
          0 < it.readRes.ret ∧ 0 < it.pollRet) := by
  have step : ∀ (c : List Nat), c.length = BUF_LEN → ∀ it,
      ∀ e ∈ (pollIteration k timeout ref callback mid fd c it).1, isCall e = true →
        e = Event.CallVoidMethod callback mid
            [JValue.obj ref, JValue.long it.epochTime, JValue.long it.nanoTime,
             JValue.int (Int.ofNat (it.readRes.data.headD 0 % 256))] ∧
        0 < it.readRes.ret ∧ 0 < it.pollRet := by
    intro c hc it e he hcall
    cases h : stops k it
    · by_cases hp : 0 < it.pollRet
      · rw [pollIteration_pos k timeout ref callback mid fd c it h hp,
          notifyArgs_fresh ref c it hc (stops_false_read_pos k it h)] at he
        simp only [iterCalls, List.cons_append, List.nil_append, List.mem_cons,
          List.mem_singleton, List.not_mem_nil, or_false] at he
        rcases he with he | he | he | he | he | he
        all_goals first
          | (rw [he] at hcall; exact Bool.noConfusion hcall)
          | exact ⟨he, stops_false_read_pos k it h, hp⟩
      · rw [pollIteration_zero k timeout ref callback mid fd c it h hp] at he
        simp only [iterCalls, List.mem_cons, List.mem_singleton, List.not_mem_nil,
          or_false] at he
        rcases he with he | he | he | he | he
        all_goals (rw [he] at hcall; exact Bool.noConfusion hcall)
    · rw [pollIteration_stop k timeout ref callback mid fd c it h] at he
      simp only [iterCalls, List.cons_append, List.nil_append, List.mem_cons,
        List.mem_singleton, List.not_mem_nil, or_false] at he
      rcases he with he | he | he | he | he | he
      all_goals (rw [he] at hcall; exact Bool.noConfusion hcall)
  refine ⟨step c hc, ?_⟩
  intro its
  induction its generalizing c with
  | nil => intro e he; rw [pollLoop_nil] at he; exact absurd he (List.not_mem_nil e)
  | cons i rest ih =>
    intro e he hcall
    rw [pollLoop_cons] at he
    cases h : stops k i
    · simp only [h, Bool.false_eq_true, if_false, List.mem_append] at he
      rcases he with he | he
      · exact ⟨i, List.mem_cons_self i rest, step c hc i e he hcall⟩
      · have hlen : (pollIteration k timeout ref callback mid fd c i).2.1.length
            = BUF_LEN := by
          rw [pollIteration_buffer_length]; exact hc
        obtain ⟨j, hj, hres⟩ := ih _ hlen e he hcall
        exact ⟨j, List.mem_cons_of_mem i hj, hres⟩
    · simp only [h, if_true] at he
      exact ⟨i, List.mem_cons_self i rest, step c hc i e he hcall⟩

/-- C3, at an edge met with stale bytes `7, 9` in the buffer. -/
theorem dispatch_arguments_witness :
    [7, 9].length = BUF_LEN ∧
    Event.CallVoidMethod 200 ⟨7, method_name, signature⟩
        [JValue.obj 42, JValue.long 50, JValue.long 1000, JValue.int 49] =
      Event.CallVoidMethod 200 ⟨7, method_name, signature⟩
        [JValue.obj 42, JValue.long sampleEdge.epochTime,
         JValue.long sampleEdge.nanoTime,
         JValue.int (Int.ofNat (sampleEdge.readRes.data.headD 0 % 256))] ∧
    0 < sampleEdge.readRes.ret ∧ 0 < sampleEdge.pollRet :=
  ⟨by decide,
    (dispatch_arguments linuxConsts 1000 42 200 ⟨7, method_name, signature⟩ 3 [7, 9]
      (by decide)).1 sampleEdge
      (Event.CallVoidMethod 200 ⟨7, method_name, signature⟩
        [JValue.obj 42, JValue.long 50, JValue.long 1000, JValue.int 49])
      (by decide) (by decide)⟩

/-- C2: in a run whose setup succeeds, the handler invocations in the trace
are, in order, exactly one for each iteration that precedes the first
terminating one and in which `poll` returned a positive value; an iteration in
which `poll` returned zero and no termination condition holds makes the five
calls of the loop body, no invocation, and does not leave the loop. -/
theorem dispatch_sequence (k : Consts) (s : SetupResp) (its : List IterResp)
    (pollNative : Nat) (filename : String) (timeout : Int) (ref callback : Nat)
    (hs : setupOk s = true) :
    (Java_com_diozero_util_PollNative_poll k s its pollNative filename timeout ref
        callback).trace.filter isDispatch =
      ((its.takeWhile (fun it => !stops k it)).filter
        (fun it => decide (it.pollRet > 0))).map
        (fun it => Event.CallVoidMethod callback ⟨s.callbackClass, method_name, signature⟩
          [JValue.obj ref, JValue.long it.epochTime, JValue.long it.nanoTime,
           JValue.int (Int.ofNat (it.readRes.data.headD 0 % 256))]) ∧
    (∀ c it, stops k it = false → it.pollRet = 0 →
      (pollIteration k timeout ref callback ⟨s.callbackClass, method_name, signature⟩
          s.openRet c it).1 = iterCalls k timeout s.openRet ∧
      (pollIteration k timeout ref callback ⟨s.callbackClass, method_name, signature⟩
          s.openRet c it).2.2 = false) := by
  constructor
  · rw [poll_of_setupOk k s its pollNative filename timeout ref callback hs]
    simp only [List.filter_append]
    rw [pollLoop_filter_dispatch k timeout ref callback
      ⟨s.callbackClass, method_name, signature⟩ s.openRet rfl its (initialBuffer s)
      (initialBuffer_length s)]
    have h1 : (openCalls k s filename callback).filter isDispatch = [] := by
      simp [openCalls, isDispatch]
    have h2 : (publishCalls k s pollNative s.openRet).filter isDispatch = [] := by
      have : (set_fd_method_name == method_name) = false := by decide
      simp [publishCalls, isDispatch, this]
    have h3 : (if its.any (stops k) = true then [Event.close s.openRet] else []).filter
        isDispatch = [] := by
      split <;> simp [isDispatch]
    rw [h1, h2, h3]
    simp only [List.nil_append, List.append_nil]
    rfl
  · intro c it hst hz
    have hp : ¬ 0 < it.pollRet := by omega
    rw [pollIteration_zero k timeout ref callback _ s.openRet c it hst hp]
    exact ⟨rfl, rfl⟩

/-- C2, on a run with an edge, a timeout, an edge, then a closed handle (and a
further edge that is never reached): two invocations, in that order. -/
theorem dispatch_sequence_witness :
    setupOk sampleSetup = true ∧
    (Java_com_diozero_util_PollNative_poll linuxConsts sampleSetup
        [sampleEdge, sampleTimeout, ⟨2, 2, 4000, 53, ⟨1, [48]⟩⟩, sampleClosed, sampleEdge]
        100 samplePath 1000 42 200).trace.filter isDispatch =
      [Event.CallVoidMethod 200 ⟨7, method_name, signature⟩
         [JValue.obj 42, JValue.long 50, JValue.long 1000, JValue.int 49],
       Event.CallVoidMethod 200 ⟨7, method_name, signature⟩
         [JValue.obj 42, JValue.long 53, JValue.long 4000, JValue.int 48]] :=
  ⟨by decide,
    (dispatch_sequence linuxConsts sampleSetup
      [sampleEdge, sampleTimeout, ⟨2, 2, 4000, 53, ⟨1, [48]⟩⟩, sampleClosed, sampleEdge]
      100 samplePath 1000 42 200 (by decide)).1.trans (by decide)⟩

/-- C4: in a run whose setup succeeds and in which some iteration meets a
termination condition, the function returns; its trace is the setup, the
iterations before the first terminating one, the five calls of the terminating
iteration, the message of the `break`, and `close` of the opened handle as the
last call; that `close` is the only `close` of the trace; and a terminating
iteration dispatches nothing, whatever `poll` returned. -/
theorem exit_closes_once (k : Consts) (s : SetupResp) (its : List IterResp)
    (pollNative : Nat) (filename : String) (timeout : Int) (ref callback : Nat)
    (hs : setupOk s = true) (hx : ∃ it ∈ its, stops k it = true) :
    (Java_com_diozero_util_PollNative_poll k s its pollNative filename timeout ref
        callback).returned = true ∧
    (Java_com_diozero_util_PollNative_poll k s its pollNative filename timeout ref
        callback).trace =
      openCalls k s filename callback ++ publishCalls k s pollNative s.openRet ++
        (pollLoop k timeout ref callback ⟨s.callbackClass, method_name, signature⟩
          s.openRet (initialBuffer s) (its.takeWhile (fun it => !stops k it))).1 ++
        iterCalls k timeout s.openRet ++
        [Event.printf "Invalid response" [], Event.close s.openRet] ∧
    (Java_com_diozero_util_PollNative_poll k s its pollNative filename timeout ref
        callback).trace.filter isClose = [Event.close s.openRet] ∧
    (∀ c it, stops k it = true →
      (pollIteration k timeout ref callback ⟨s.callbackClass, method_name, signature⟩
          s.openRet c it).1 =
        iterCalls k timeout s.openRet ++ [Event.printf "Invalid response" []]) := by
  have hany : its.any (stops k) = true := by
    obtain ⟨it, hit, hst⟩ := hx
    exact List.any_eq_true.2 ⟨it, hit, hst⟩
  rw [poll_of_setupOk k s its pollNative filename timeout ref callback hs]
  refine ⟨hany, ?_, ?_, ?_⟩
  · simp only [hany, if_true]
    rw [pollLoop_trace_exit k timeout ref callback _ s.openRet its hany]
    simp only [List.append_assoc, List.cons_append, List.nil_append]
  · simp only [hany, if_true, List.filter_append]
    rw [pollLoop_filter_close]
    simp [openCalls, publishCalls, isClose]
  · intro c it hst
    rw [pollIteration_stop k timeout ref callback _ s.openRet c it hst]

/-- C4, on a run with an edge and then an iteration in which `poll` returns a
positive value with `POLLNVAL` set: one `close`, of handle `3`, one dispatch
(that of the edge), and the function returns. -/
theorem exit_closes_once_witness :
    setupOk sampleSetup = true ∧
    (∃ it ∈ [sampleEdge, sampleClosed], stops linuxConsts it = true) ∧
    (Java_com_diozero_util_PollNative_poll linuxConsts sampleSetup
        [sampleEdge, sampleClosed] 100 samplePath 1000 42 200).returned = true ∧
    (Java_com_diozero_util_PollNative_poll linuxConsts sampleSetup
        [sampleEdge, sampleClosed] 100 samplePath 1000 42 200).trace.filter isClose =
      [Event.close 3] :=
  ⟨by decide, ⟨sampleClosed, by decide, by decide⟩,
    (exit_closes_once linuxConsts sampleSetup [sampleEdge, sampleClosed] 100 samplePath
      1000 42 200 (by decide) ⟨sampleClosed, by decide, by decide⟩).1,
    (exit_closes_once linuxConsts sampleSetup [sampleEdge, sampleClosed] 100 samplePath
      1000 42 200 (by decide) ⟨sampleClosed, by decide, by decide⟩).2.2.1⟩

/-- C5: when the handler lookups succeed and `open` returns a negative value,
the function returns after the calls that lead to that one `open` and the
message reporting the failure, whatever responses the loop would have had: the
only calls that are not JNI queries are the `open` and the `printf`, so there
is no `setFd` call, no handler invocation, and no `poll`, `lseek`, `read` or
`close`. -/
theorem open_failure_returns (k : Consts) (s : SetupResp) (its : List IterResp)
    (pollNative : Nat) (filename : String) (timeout : Int) (ref callback : Nat)
    (hr : reachesOpen s = true) (ho : s.openRet < 0) :
    (Java_com_diozero_util_PollNative_poll k s its pollNative filename timeout ref
        callback).returned = true ∧
    (Java_com_diozero_util_PollNative_poll k s its pollNative filename timeout ref
        callback).trace =
      [Event.GetObjectClass callback,
       Event.GetMethodID s.callbackClass "notify" "(Ljava/lang/String;JC)V",
       Event.ExceptionCheck,
       Event.GetStringLength filename,
       Event.GetStringUTFRegion filename 0 filename.length,
       Event.open filename (k.O_RDONLY ||| k.O_NONBLOCK),
       Event.printf "open: file %s could not be opened, %s\n" [filename, s.openErr]] ∧
    (Java_com_diozero_util_PollNative_poll k s its pollNative filename timeout ref
        callback).trace.filter (fun e => !isLookup e) =
      [Event.open filename (k.O_RDONLY ||| k.O_NONBLOCK),
       Event.printf "open: file %s could not be opened, %s\n" [filename, s.openErr]] := by
  simp only [reachesOpen, Bool.and_eq_true, decide_eq_true_eq, Bool.not_eq_true',
    ne_eq] at hr
  obtain ⟨⟨h1, h2⟩, h3⟩ := hr
  have hrun : Java_com_diozero_util_PollNative_poll k s its pollNative filename timeout
      ref callback =
      ⟨openCalls k s filename callback ++
        [Event.printf "open: file %s could not be opened, %s\n"
          [String.mk (filename.toList.take filename.length), s.openErr]], true⟩ := by
    unfold Java_com_diozero_util_PollNative_poll
    simp only [h1, h2, h3, ho, if_false, if_true, Bool.or_false, Bool.not_true,
      Bool.false_eq_true]
  rw [hrun]
  unfold openCalls
  simp only [c_filename_eq]
  refine ⟨trivial, ?_, ?_⟩
  · rfl
  · simp [isLookup]

/-- C5, on a path that cannot be opened. -/
theorem open_failure_returns_witness :
    reachesOpen openFails = true ∧ openFails.openRet < 0 ∧
    (Java_com_diozero_util_PollNative_poll linuxConsts openFails [sampleEdge] 100
        samplePath 1000 42 200).trace.filter (fun e => !isLookup e) =
      [Event.open samplePath (linuxConsts.O_RDONLY ||| linuxConsts.O_NONBLOCK),
       Event.printf "open: file %s could not be opened, %s\n"
         [samplePath, openFails.openErr]] :=
  ⟨by decide, by decide,
    (open_failure_returns linuxConsts openFails [sampleEdge] 100 samplePath 1000 42 200
      (by decide) (by decide)).2.2⟩

/-- C6: when the setup succeeds, the trace of the function starts with the
setup calls, and what follows them is nothing (no iteration has run) or starts
with the first `poll`; leaving the JNI queries aside, the setup calls are, in
order: `open` of the file with `O_RDONLY | O_NONBLOCK`, one `setFd` call on the
session object with the value `open` returned, `lseek` to offset `0` from
`SEEK_SET`, and one `read` of at most one byte; this holds for every result of
that read, and none of these calls is a handler invocation. -/
theorem setup_sequence (k : Consts) (s : SetupResp) (its : List IterResp)
    (pollNative : Nat) (filename : String) (timeout : Int) (ref callback : Nat)
    (hs : setupOk s = true) :
    (∃ rest, (Java_com_diozero_util_PollNative_poll k s its pollNative filename
          timeout ref callback).trace =
        openCalls k s filename callback ++ publishCalls k s pollNative s.openRet ++ rest ∧
      (its = [] → rest = []) ∧
      (its ≠ [] → ∃ tail, rest = Event.poll s.openRet (pfdEvents k) 1 timeout :: tail)) ∧
    (openCalls k s filename callback ++ publishCalls k s pollNative s.openRet).filter
        (fun e => !isLookup e) =
      [Event.open filename (k.O_RDONLY ||| k.O_NONBLOCK),
       Event.CallVoidMethod pollNative ⟨s.pollNativeClass, "setFd", "(I)V"⟩
         [JValue.int s.openRet],
       Event.lseek s.openRet 0 k.SEEK_SET,
       Event.read s.openRet 1] ∧
    (openCalls k s filename callback ++ publishCalls k s pollNative s.openRet).filter
        (fun e => isDispatch e || isPoll e) = [] := by
  refine ⟨?_, ?_, ?_⟩
  · rw [poll_of_setupOk k s its pollNative filename timeout ref callback hs]
    refine ⟨(pollLoop k timeout ref callback ⟨s.callbackClass, method_name, signature⟩
        s.openRet (initialBuffer s) its).1 ++
        (if its.any (stops k) then [Event.close s.openRet] else []), ?_, ?_, ?_⟩
    · simp only [List.append_assoc]
    · intro h
      rw [h, pollLoop_nil]
      rfl
    · intro h
      match its, h with
      | it :: tl, _ =>
        obtain ⟨o, ho, _⟩ := pollIteration_shape k timeout ref callback
          ⟨s.callbackClass, method_name, signature⟩ s.openRet (initialBuffer s) it
        rw [pollLoop_cons]
        cases hst : stops k it
        · simp only [Bool.false_eq_true, if_false, ho, iterCalls, List.cons_append,
            List.append_assoc]
          exact ⟨_, rfl⟩
        · simp only [if_true, ho, iterCalls, List.cons_append, List.append_assoc]
          exact ⟨_, rfl⟩
  · unfold openCalls publishCalls
    simp only [c_filename_eq]
    simp [isLookup, set_fd_method_name, set_fd_signature, BUF_LEN]
  · have : (set_fd_method_name == method_name) = false := by decide
    simp [openCalls, publishCalls, isDispatch, isPoll, this]

/-- C6, on a run of one edge: the calls before the first `poll`. -/
theorem setup_sequence_witness :
    setupOk sampleSetup = true ∧
    (openCalls linuxConsts sampleSetup samplePath 200 ++
        publishCalls linuxConsts sampleSetup 100 sampleSetup.openRet).filter
        (fun e => !isLookup e) =
      [Event.open samplePath (linuxConsts.O_RDONLY ||| linuxConsts.O_NONBLOCK),
       Event.CallVoidMethod 100 ⟨sampleSetup.pollNativeClass, "setFd", "(I)V"⟩
         [JValue.int sampleSetup.openRet],
       Event.lseek sampleSetup.openRet 0 linuxConsts.SEEK_SET,
       Event.read sampleSetup.openRet 1] :=
  ⟨by decide,
    (setup_sequence linuxConsts sampleSetup [sampleEdge] 100 samplePath 1000 42 200
      (by decide)).2.1⟩

/-- C9: with `open` returning handle `3`, when the class of the session object
cannot be obtained, or when it has no `setFd` method, the function returns
after a trace that contains the `open` and no `close`. -/
theorem handle_not_closed_on_lookup_failure :
    (Java_com_diozero_util_PollNative_poll linuxConsts noSessionClass [sampleEdge] 100
        samplePath 1000 42 200) =
      ⟨[Event.GetObjectClass 200,
        Event.GetMethodID 7 "notify" "(Ljava/lang/String;JC)V",
        Event.ExceptionCheck,
        Event.GetStringLength samplePath,
        Event.GetStringUTFRegion samplePath 0 27,
        Event.open samplePath 2048,
        Event.GetObjectClass 100,
        Event.printf "Error: poll() could not get PollNative class\n" []], true⟩ ∧
    (Java_com_diozero_util_PollNative_poll linuxConsts noSetFd [sampleEdge] 100
        samplePath 1000 42 200) =
      ⟨[Event.GetObjectClass 200,
        Event.GetMethodID 7 "notify" "(Ljava/lang/String;JC)V",
        Event.ExceptionCheck,
        Event.GetStringLength samplePath,
        Event.GetStringUTFRegion samplePath 0 27,
        Event.open samplePath 2048,
        Event.GetObjectClass 100,
        Event.GetMethodID 9 "setFd" "(I)V",
        Event.printf
          "Unable to find method '%s' with signature '%s' in PollNative object\n"
          ["setFd", "(I)V"]], true⟩ ∧
    (Java_com_diozero_util_PollNative_poll linuxConsts noSessionClass [sampleEdge] 100
        samplePath 1000 42 200).trace.filter isClose = [] ∧
    (Java_com_diozero_util_PollNative_poll linuxConsts noSetFd [sampleEdge] 100
        samplePath 1000 42 200).trace.filter isClose = [] := by
  refine ⟨by decide, by decide, by decide, by decide⟩

/-- C10: the descriptor with which `notify` is resolved declares three
parameters, a `String`, a `long` and a `char`, whereas the dispatch call passes
four arguments, an object, two `long` values and a byte: the argument list
does not fit the descriptor (it would fit one with two `long` parameters), as
in the single dispatch of a run with one edge. -/
theorem notify_descriptor_mismatch :
    descriptorParams signature =
      some [JType.object "java/lang/String", JType.long, JType.char] ∧
    (∀ (ref : Nat) (epoch_time nano_time : Int) (c : List Nat),
      (notifyArgs ref epoch_time nano_time c).length = 4 ∧
      argsMatch [JType.object "java/lang/String", JType.long, JType.char]
        (notifyArgs ref epoch_time nano_time c) = false ∧
      argsMatch [JType.object "java/lang/Object", JType.long, JType.long, JType.char]
        (notifyArgs ref epoch_time nano_time c) = true) ∧
    (Java_com_diozero_util_PollNative_poll linuxConsts sampleSetup
        [sampleEdge, sampleClosed] 100 samplePath 1000 42 200).trace.filter isDispatch =
      [Event.CallVoidMethod 200 ⟨7, "notify", "(Ljava/lang/String;JC)V"⟩
        [JValue.obj 42, JValue.long 50, JValue.long 1000, JValue.int 49]] := by
  refine ⟨by decide, ?_, by decide⟩
  intro ref epoch_time nano_time c
  exact ⟨rfl, rfl, rfl⟩

end PollNative
